import Mathlib

/-!
Shallow embedding of a minimal blockchain runtime (balances, proof-of-existence
and system pallets composed into a runtime that executes blocks of extrinsics).
The pallets are translated from src/src/balances.rs, src/src/system.rs and
src/src/proof_of_existence.rs; the concrete configuration comes from
src/src/main.rs (AccountId = String, Balance = u128, BlockNumber = u32,
Nonce = u32, Content = a string). BTreeMap storage is embedded as an
association list; u128 and u32 arithmetic is embedded as Nat with explicit
bounds where overflow matters.
-/

/-- Lookup in an association list, mirroring BTreeMap.get: the value stored at
the key, or none when the key is absent. -/
def lookupMap {α β : Type} [DecidableEq α] : List (α × β) → α → Option β
  | [], _ => none
  | (k, v) :: rest, key => if k = key then some v else lookupMap rest key

/-- Insert into an association list, mirroring BTreeMap.insert: replaces the
value at an existing key, appends a fresh entry otherwise. -/
def insertMap {α β : Type} [DecidableEq α] : List (α × β) → α → β → List (α × β)
  | [], key, val => [(key, val)]
  | (k, v) :: rest, key, val =>
    if k = key then (key, val) :: rest else (k, v) :: insertMap rest key val

/-- Removal from an association list, mirroring BTreeMap.remove (a BTreeMap
holds each key at most once, so removal drops every entry at the key). -/
def removeMap {α β : Type} [DecidableEq α] : List (α × β) → α → List (α × β)
  | [], _ => []
  | (k, v) :: rest, key =>
    if k = key then removeMap rest key else (k, v) :: removeMap rest key

/-- Concrete account identifier type from the runtime configuration. -/
abbrev AccountId := String

/-- Concrete claim content type from the runtime configuration. -/
abbrev Content := String

/-- First value not representable in u128. -/
def U128_LIMIT : Nat := 2 ^ 128

/-- First value not representable in u32. -/
def U32_LIMIT : Nat := 2 ^ 32

/-- Rust checked_sub on an unsigned integer: none when the subtraction would
go below zero. -/
def checked_sub (a b : Nat) : Option Nat :=
  if b ≤ a then some (a - b) else none

/-- Rust checked_add on an unsigned integer of the given limit: none when the
sum is not representable. -/
def checked_add (a b limit : Nat) : Option Nat :=
  if a + b < limit then some (a + b) else none

namespace balances

/-- The balances pallet state: a map from account to balance
(src/src/balances.rs). -/
structure Pallet where
  balances : List (AccountId × Nat)
deriving DecidableEq

/-- Pallet::new in src/src/balances.rs: an empty balances map. -/
def Pallet.new : Pallet := ⟨[]⟩

/-- Pallet::balance in src/src/balances.rs: the stored balance, or zero for an
unseen account. -/
def Pallet.balance (p : Pallet) (who : AccountId) : Nat :=
  (lookupMap p.balances who).getD 0

/-- Pallet::set_balance in src/src/balances.rs: unconditional insert. -/
def Pallet.set_balance (p : Pallet) (who : AccountId) (amount : Nat) : Pallet :=
  ⟨insertMap p.balances who amount⟩

/-- Pallet::transfer in src/src/balances.rs: read both balances, check the
subtraction and the addition, then write both balances. The mutable reference
semantics of the Rust method is embedded by returning the result together with
the post state; an early return leaves the state unchanged. -/
def Pallet.transfer (p : Pallet) (caller dest : AccountId) (amount : Nat) :
    Except String Unit × Pallet :=
  let caller_balance := p.balance caller
  let to_balance := p.balance dest
  match checked_sub caller_balance amount with
  | none => (Except.error "Insufficient balance", p)
  | some new_caller_balance =>
    match checked_add to_balance amount U128_LIMIT with
    | none => (Except.error "Overflow when adding to balance", p)
    | some new_to_balance =>
      (Except.ok (), (p.set_balance caller new_caller_balance).set_balance dest new_to_balance)

end balances

namespace system

/-- The system pallet state: current block number and per-account nonces
(src/src/system.rs). -/
structure Pallet where
  block_number : Nat
  nonce : List (AccountId × Nat)
deriving DecidableEq

/-- Pallet::new in src/src/system.rs: block number zero, empty nonce map. -/
def Pallet.new : Pallet := ⟨0, []⟩

/-- Pallet::inc_block_number in src/src/system.rs: block_number += 1 on a u32,
embedded with the wrapping reduction made explicit. -/
def Pallet.inc_block_number (p : Pallet) : Pallet :=
  { p with block_number := (p.block_number + 1) % U32_LIMIT }

/-- Pallet::get_nonce in src/src/system.rs: the stored nonce, or zero for an
unseen account. -/
def Pallet.get_nonce (p : Pallet) (who : AccountId) : Nat :=
  (lookupMap p.nonce who).getD 0

/-- Pallet::inc_nonce in src/src/system.rs: read the current nonce (zero if
unseen) and write back current + 1 on a u32, with the wrapping reduction made
explicit. -/
def Pallet.inc_nonce (p : Pallet) (who : AccountId) : Pallet :=
  { p with nonce := insertMap p.nonce who ((p.get_nonce who + 1) % U32_LIMIT) }

end system

namespace proof_of_existence

/-- The proof-of-existence pallet state: a map from claimed content to owner
(src/src/proof_of_existence.rs). -/
structure Pallet where
  claims : List (Content × AccountId)
deriving DecidableEq

/-- Pallet::new in src/src/proof_of_existence.rs: an empty claims map. -/
def Pallet.new : Pallet := ⟨[]⟩

/-- Pallet::get_claim in src/src/proof_of_existence.rs: the owner of a claim,
if any. -/
def Pallet.get_claim (p : Pallet) (claim : Content) : Option AccountId :=
  lookupMap p.claims claim

/-- Pallet::create_claim in src/src/proof_of_existence.rs: error when the
content already has an owner, insert it for the caller otherwise. -/
def Pallet.create_claim (p : Pallet) (caller : AccountId) (claim : Content) :
    Except String Unit × Pallet :=
  match p.get_claim claim with
  | some _ => (Except.error "Claim already exists", p)
  | none => (Except.ok (), ⟨insertMap p.claims claim caller⟩)

/-- Pallet::revoke_claim in src/src/proof_of_existence.rs: error when the
claim does not exist or the caller is not its owner, remove it otherwise. -/
def Pallet.revoke_claim (p : Pallet) (caller : AccountId) (claim : Content) :
    Except String Unit × Pallet :=
  match p.get_claim claim with
  | none => (Except.error "Claim does not exist.", p)
  | some claim_owner =>
    if claim_owner ≠ caller then
      (Except.error "Caller is not the owner of the claim", p)
    else
      (Except.ok (), ⟨removeMap p.claims claim⟩)

/-- The call enum generated for the pallet by the macros::call attribute in
src/src/proof_of_existence.rs and dispatched as
RuntimeCall::proof_of_existence in src/src/main.rs. -/
inductive Call where
  | create_claim (claim : Content)
  | revoke_claim (claim : Content)
deriving DecidableEq

end proof_of_existence

namespace balances

/-- The call enum generated for the pallet by the macros::call attribute in
src/src/balances.rs and dispatched as RuntimeCall::balances in
src/src/main.rs. -/
inductive Call where
  | transfer (dest : AccountId) (amount : Nat)
deriving DecidableEq

end balances

/-- RuntimeCall, the closed union of pallet calls, built by the
macros::runtime attribute on Runtime in src/src/main.rs. -/
inductive RuntimeCall where
  | balances (call : balances.Call)
  | proof_of_existence (call : proof_of_existence.Call)
deriving DecidableEq

/-- Modelled from the spec: the support module declaring Extrinsic is not
among the source files. An extrinsic is an immutable record of the caller
account and the call. -/
structure Extrinsic where
  caller : AccountId
  call : RuntimeCall
deriving DecidableEq

/-- Modelled from the spec: the support module declaring Header is not among
the source files. A header carries the block number. -/
structure Header where
  block_number : Nat
deriving DecidableEq

/-- Modelled from the spec: the support module declaring Block is not among
the source files. A block is a header plus an ordered sequence of
extrinsics. -/
structure Block where
  header : Header
  extrinsics : List Extrinsic
deriving DecidableEq

/-- The Runtime of src/src/main.rs: one instance of each pallet state. -/
structure Runtime where
  system : system.Pallet
  balances : balances.Pallet
  proof_of_existence : proof_of_existence.Pallet
deriving DecidableEq

/-- Modelled from the spec: Runtime::new is generated by the macros::runtime
attribute and is not among the source files; the spec requires construction
with empty state (all maps empty, block number zero). -/
def Runtime.new : Runtime :=
  ⟨system.Pallet.new, balances.Pallet.new, proof_of_existence.Pallet.new⟩

/-- Modelled from the spec: the dispatch implementation is generated by the
macros::runtime attribute and is not among the source files; the spec requires
routing the call to the pallet named by its tag and invoking that pallet
operation with the caller and the call arguments. -/
def Runtime.dispatch (r : Runtime) (caller : AccountId) (call : RuntimeCall) :
    Except String Unit × Runtime :=
  match call with
  | RuntimeCall.balances (balances.Call.transfer dest amount) =>
    let step := r.balances.transfer caller dest amount
    (step.1, { r with balances := step.2 })
  | RuntimeCall.proof_of_existence (proof_of_existence.Call.create_claim claim) =>
    let step := r.proof_of_existence.create_claim caller claim
    (step.1, { r with proof_of_existence := step.2 })
  | RuntimeCall.proof_of_existence (proof_of_existence.Call.revoke_claim claim) =>
    let step := r.proof_of_existence.revoke_claim caller claim
    (step.1, { r with proof_of_existence := step.2 })

/-- Modelled from the spec: one extrinsic of the block loop in execute_block,
generated by the macros::runtime attribute and not among the source files; the
spec requires incrementing the caller nonce unconditionally, before the call
is dispatched. -/
def Runtime.apply_extrinsic (r : Runtime) (e : Extrinsic) :
    Except String Unit × Runtime :=
  let r1 : Runtime := { r with system := r.system.inc_nonce e.caller }
  r1.dispatch e.caller e.call

/-- Modelled from the spec: the extrinsic loop of execute_block; each
extrinsic is processed in order, its result is recorded, and a failure does
not abort the loop. -/
def Runtime.run_extrinsics : Runtime → List Extrinsic → List (Except String Unit) × Runtime
  | r, [] => ([], r)
  | r, e :: rest =>
    let step := r.apply_extrinsic e
    let tail := Runtime.run_extrinsics step.2 rest
    (step.1 :: tail.1, tail.2)

/-- Modelled from the spec: execute_block is generated by the macros::runtime
attribute and is not among the source files. The spec requires incrementing
the block number exactly once, then processing every extrinsic in order
(nonce first, then dispatch), recording per-extrinsic outcomes without
aborting; the top-level error is reserved for a malformed block, a condition
that cannot arise in the closed call union, so the embedding returns the
per-extrinsic outcome record together with the post state. -/
def Runtime.execute_block (r : Runtime) (b : Block) :
    List (Except String Unit) × Runtime :=
  Runtime.run_extrinsics { r with system := r.system.inc_block_number } b.extrinsics

/-- Number of extrinsics in a list whose caller is the given account. -/
def callerCount (es : List Extrinsic) (a : AccountId) : Nat :=
  (es.filter (fun e => e.caller = a)).length

/-- Genesis-style state used by concrete witnesses: alice funded with 100,
as in the entry point of src/src/main.rs. -/
def demoPallet : balances.Pallet :=
  balances.Pallet.new.set_balance "alice" 100

/-- State used by the overflow witness: alice funded with 100 and bob holding
the largest u128 value. -/
def demoPalletOv : balances.Pallet :=
  (balances.Pallet.new.set_balance "alice" 100).set_balance "bob" (U128_LIMIT - 1)

/-- Claim registry used by concrete witnesses: alice owns the content doc. -/
def demoPoe : proof_of_existence.Pallet :=
  (proof_of_existence.Pallet.new.create_claim "alice" "doc").2

/-- The first block built in src/src/main.rs: two transfers from alice. -/
def demoBlock : Block :=
  { header := { block_number := 1 },
    extrinsics :=
      [ { caller := "alice",
          call := RuntimeCall.balances (balances.Call.transfer "bob" 30) },
        { caller := "alice",
          call := RuntimeCall.balances (balances.Call.transfer "charli" 20) } ] }

theorem lookupMap_insertMap_same {α β : Type} [DecidableEq α]
    (m : List (α × β)) (k : α) (v : β) :
    lookupMap (insertMap m k v) k = some v := by
  induction m with
  | nil => simp [insertMap, lookupMap]
  | cons kv rest ih =>
    obtain ⟨k1, v1⟩ := kv
    by_cases h : k1 = k
    · simp [insertMap, lookupMap, h]
    · simp [insertMap, lookupMap, h, ih]

theorem lookupMap_insertMap_ne {α β : Type} [DecidableEq α]
    (m : List (α × β)) (k q : α) (v : β) (h : q ≠ k) :
    lookupMap (insertMap m k v) q = lookupMap m q := by
  induction m with
  | nil => simp [insertMap, lookupMap, Ne.symm h]
  | cons kv rest ih =>
    obtain ⟨k1, v1⟩ := kv
    by_cases h1 : k1 = k
    · subst h1
      simp [insertMap, lookupMap, Ne.symm h]
    · simp [insertMap, lookupMap, h1, ih]

theorem lookupMap_removeMap_same {α β : Type} [DecidableEq α]
    (m : List (α × β)) (k : α) :
    lookupMap (removeMap m k) k = none := by
  induction m with
  | nil => simp [removeMap, lookupMap]
  | cons kv rest ih =>
    obtain ⟨k1, v1⟩ := kv
    by_cases h : k1 = k
    · simp [removeMap, h, ih]
    · simp [removeMap, lookupMap, h, ih]

namespace balances

theorem balance_set_balance_same (p : Pallet) (who : AccountId) (amount : Nat) :
    (p.set_balance who amount).balance who = amount := by
  simp [Pallet.set_balance, Pallet.balance, lookupMap_insertMap_same]

theorem balance_set_balance_ne (p : Pallet) (who x : AccountId) (amount : Nat)
    (h : x ≠ who) :
    (p.set_balance who amount).balance x = p.balance x := by
  simp [Pallet.set_balance, Pallet.balance, lookupMap_insertMap_ne _ _ _ _ h]

end balances

theorem dispatch_system (r : Runtime) (caller : AccountId) (c : RuntimeCall) :
    ((r.dispatch caller c).2).system = r.system := by
  cases c with
  | balances cb => cases cb with
    | transfer dest amount => rfl
  | proof_of_existence cp => cases cp with
    | create_claim claim => rfl
    | revoke_claim claim => rfl

theorem apply_extrinsic_system (r : Runtime) (e : Extrinsic) :
    ((r.apply_extrinsic e).2).system = r.system.inc_nonce e.caller := by
  simp [Runtime.apply_extrinsic, dispatch_system]

theorem inc_nonce_block_number (p : system.Pallet) (a : AccountId) :
    (p.inc_nonce a).block_number = p.block_number := rfl

theorem run_extrinsics_block_number (es : List Extrinsic) (r : Runtime) :
    ((Runtime.run_extrinsics r es).2).system.block_number
      = r.system.block_number := by
  induction es generalizing r with
  | nil => rfl
  | cons e rest ih =>
    simp [Runtime.run_extrinsics, ih, apply_extrinsic_system, inc_nonce_block_number]

theorem run_extrinsics_length (es : List Extrinsic) (r : Runtime) :
    ((Runtime.run_extrinsics r es).1).length = es.length := by
  induction es generalizing r with
  | nil => rfl
  | cons e rest ih => simp [Runtime.run_extrinsics, ih]

theorem get_nonce_inc_nonce_same (p : system.Pallet) (a : AccountId) :
    (p.inc_nonce a).get_nonce a = (p.get_nonce a + 1) % U32_LIMIT := by
  simp [system.Pallet.inc_nonce, system.Pallet.get_nonce, lookupMap_insertMap_same]

theorem get_nonce_inc_nonce_ne (p : system.Pallet) (a b : AccountId) (h : b ≠ a) :
    (p.inc_nonce a).get_nonce b = p.get_nonce b := by
  simp only [system.Pallet.inc_nonce, system.Pallet.get_nonce]
  rw [lookupMap_insertMap_ne _ _ _ _ h]

theorem run_extrinsics_nonce (es : List Extrinsic) :
    ∀ (r : Runtime) (a : AccountId),
      r.system.get_nonce a + callerCount es a < U32_LIMIT →
      ((Runtime.run_extrinsics r es).2).system.get_nonce a
        = r.system.get_nonce a + callerCount es a := by
  induction es with
  | nil =>
    intro r a h
    simp [Runtime.run_extrinsics, callerCount]
  | cons e rest ih =>
    intro r a h
    have hsys : ((r.apply_extrinsic e).2).system = r.system.inc_nonce e.caller :=
      apply_extrinsic_system r e
    by_cases hc : e.caller = a
    · have hcount : callerCount (e :: rest) a = callerCount rest a + 1 := by
        simp [callerCount, List.filter_cons, hc]
      have hlt : r.system.get_nonce a + 1 < U32_LIMIT := by
        rw [hcount] at h
        omega
      have hstep : ((r.apply_extrinsic e).2).system.get_nonce a
          = r.system.get_nonce a + 1 := by
        rw [hsys, hc, get_nonce_inc_nonce_same, Nat.mod_eq_of_lt hlt]
      have ihh := ih ((r.apply_extrinsic e).2) a
        (by rw [hstep]; rw [hcount] at h; omega)
      simp only [Runtime.run_extrinsics]
      rw [ihh, hstep, hcount]
      omega
    · have hcount : callerCount (e :: rest) a = callerCount rest a := by
        simp [callerCount, List.filter_cons, hc]
      have hstep : ((r.apply_extrinsic e).2).system.get_nonce a
          = r.system.get_nonce a := by
        rw [hsys, get_nonce_inc_nonce_ne _ _ _ (fun hh => hc hh.symm)]
      have ihh := ih ((r.apply_extrinsic e).2) a
        (by rw [hstep]; rw [hcount] at h; omega)
      simp only [Runtime.run_extrinsics]
      rw [ihh, hstep, hcount]

/-- Claim C1, checked against the code at a concrete input: with a balance of
100, the self-transfer transfer(alice, alice, 30) succeeds, yet alice ends
with 130 instead of 100. Both checks do read the pre-transfer balance, but the
second set_balance write (pre-balance + amount) overwrites the first, so a
successful self-transfer gains the amount rather than leaving the balance
unchanged, contradicting the stated conservation behaviour. -/
theorem C1_self_transfer_net_gain :
    demoPallet.balance "alice" = 100
    ∧ (demoPallet.transfer "alice" "alice" 30).1 = Except.ok ()
    ∧ (demoPallet.transfer "alice" "alice" 30).2.balance "alice" = 130 :=
  ⟨rfl, rfl, rfl⟩

/-- Claim C2: transfer(A, B, k) fails with the insufficient-balance error when
k exceeds the balance of A, fails with the overflow error when the balance of
B plus k is not representable in u128 while A has sufficient funds, and in
either failure case the pallet state is left completely unchanged. -/
theorem C2_transfer_error_cases (p : balances.Pallet) (A B : AccountId) (k : Nat) :
    (p.balance A < k →
      (p.transfer A B k).1 = Except.error "Insufficient balance"
      ∧ (p.transfer A B k).2 = p)
    ∧ (k ≤ p.balance A → U128_LIMIT ≤ p.balance B + k →
      (p.transfer A B k).1 = Except.error "Overflow when adding to balance"
      ∧ (p.transfer A B k).2 = p) := by
  constructor
  · intro h
    have hs : checked_sub (p.balance A) k = none := by
      simp only [checked_sub, ite_eq_right_iff]
      omega
    simp [balances.Pallet.transfer, hs]
  · intro h1 h2
    have hs : checked_sub (p.balance A) k = some (p.balance A - k) := by
      simp [checked_sub, h1]
    have ha : checked_add (p.balance B) k U128_LIMIT = none := by
      simp only [checked_add, ite_eq_right_iff]
      omega
    simp [balances.Pallet.transfer, hs, ha]

/-- Witness for claim C2 at concrete inputs: an underfunded transfer of 150
from a balance of 100 and an overflowing transfer of 1 towards the largest
u128 balance. -/
theorem C2_transfer_error_cases_witness :
    (demoPallet.balance "alice" < 150
      ∧ (demoPallet.transfer "alice" "bob" 150).1 = Except.error "Insufficient balance"
      ∧ (demoPallet.transfer "alice" "bob" 150).2 = demoPallet)
    ∧ (1 ≤ demoPalletOv.balance "alice"
      ∧ U128_LIMIT ≤ demoPalletOv.balance "bob" + 1
      ∧ (demoPalletOv.transfer "alice" "bob" 1).1 = Except.error "Overflow when adding to balance"
      ∧ (demoPalletOv.transfer "alice" "bob" 1).2 = demoPalletOv) :=
  ⟨⟨by decide, (C2_transfer_error_cases demoPallet "alice" "bob" 150).1 (by decide)⟩,
   ⟨by decide, by decide,
    (C2_transfer_error_cases demoPalletOv "alice" "bob" 1).2 (by decide) (by decide)⟩⟩

/-- Claim C3: for distinct accounts A and B with balances a and b, a
successful transfer of k leaves A at a - k and B at b + k, k ≤ a held before
the call, and the total balance is conserved. -/
theorem C3_transfer_conservation (p : balances.Pallet) (A B : AccountId)
    (k a b : Nat) (hne : A ≠ B) (ha : p.balance A = a) (hb : p.balance B = b)
    (hok : (p.transfer A B k).1 = Except.ok ()) :
    (p.transfer A B k).2.balance A = a - k
    ∧ (p.transfer A B k).2.balance B = b + k
    ∧ k ≤ a ∧ (a - k) + (b + k) = a + b := by
  by_cases hk : k ≤ p.balance A
  · by_cases hov : p.balance B + k < U128_LIMIT
    · have hs : checked_sub (p.balance A) k = some (p.balance A - k) := by
        simp [checked_sub, hk]
      have hadd : checked_add (p.balance B) k U128_LIMIT = some (p.balance B + k) := by
        simp [checked_add, hov]
      have hstate : (p.transfer A B k).2
          = (p.set_balance A (p.balance A - k)).set_balance B (p.balance B + k) := by
        simp [balances.Pallet.transfer, hs, hadd]
      subst ha hb
      refine ⟨?_, ?_, hk, by omega⟩
      · rw [hstate, balances.balance_set_balance_ne _ _ _ _ hne,
            balances.balance_set_balance_same]
      · rw [hstate, balances.balance_set_balance_same]
    · exfalso
      have hs : checked_sub (p.balance A) k = some (p.balance A - k) := by
        simp [checked_sub, hk]
      have hadd : checked_add (p.balance B) k U128_LIMIT = none := by
        simp only [checked_add, ite_eq_right_iff]
        omega
      simp [balances.Pallet.transfer, hs, hadd] at hok
  · exfalso
    have hs : checked_sub (p.balance A) k = none := by
      simp only [checked_sub, ite_eq_right_iff]
      omega
    simp [balances.Pallet.transfer, hs] at hok

/-- Witness for claim C3 at a concrete input: the first transfer of the demo
block, alice sending 30 to bob out of 100. -/
theorem C3_transfer_conservation_witness :
    (("alice" : AccountId) ≠ "bob"
      ∧ demoPallet.balance "alice" = 100
      ∧ demoPallet.balance "bob" = 0
      ∧ (demoPallet.transfer "alice" "bob" 30).1 = Except.ok ())
    ∧ ((demoPallet.transfer "alice" "bob" 30).2.balance "alice" = 100 - 30
      ∧ (demoPallet.transfer "alice" "bob" 30).2.balance "bob" = 0 + 30
      ∧ 30 ≤ 100 ∧ (100 - 30) + (0 + 30) = 100 + 0) :=
  ⟨⟨by decide, rfl, rfl, rfl⟩,
   C3_transfer_conservation demoPallet "alice" "bob" 30 100 0 (by decide) rfl rfl rfl⟩

/-- Claim C4: across execute_block each account gains exactly one nonce
increment per extrinsic it submitted: the nonce is bumped unconditionally
before dispatch, so call failures do not matter, and afterwards the nonce
equals its prior value plus the number of extrinsics by that caller, as long
as that sum stays inside the u32 range. -/
theorem C4_nonce_per_extrinsic (r : Runtime) (b : Block) (a : AccountId)
    (h : r.system.get_nonce a + callerCount b.extrinsics a < U32_LIMIT) :
    ((r.execute_block b).2).system.get_nonce a
      = r.system.get_nonce a + callerCount b.extrinsics a := by
  have hbn : ({ r with system := r.system.inc_block_number } : Runtime).system.get_nonce a
      = r.system.get_nonce a := rfl
  unfold Runtime.execute_block
  rw [run_extrinsics_nonce _ _ _ (by rw [hbn]; exact h), hbn]

/-- Witness for claim C4: executing the demo block (two extrinsics by alice,
both of which fail for lack of funds on a fresh runtime) still takes the alice
nonce from 0 to 2. -/
theorem C4_nonce_per_extrinsic_witness :
    Runtime.new.system.get_nonce "alice" + callerCount demoBlock.extrinsics "alice" < U32_LIMIT
    ∧ ((Runtime.new.execute_block demoBlock).2).system.get_nonce "alice"
      = Runtime.new.system.get_nonce "alice" + callerCount demoBlock.extrinsics "alice" :=
  ⟨by decide, C4_nonce_per_extrinsic Runtime.new demoBlock "alice" (by decide)⟩

/-- Claim C5: execute_block advances the block number by exactly one u32
increment, for any block including an empty one, independent of the extrinsics
and of their outcomes, and it records one outcome per extrinsic without
aborting the block on a call failure. -/
theorem C5_block_number_once (r : Runtime) (b : Block) :
    ((r.execute_block b).2).system.block_number
      = (r.system.block_number + 1) % U32_LIMIT
    ∧ ((r.execute_block b).1).length = b.extrinsics.length := by
  constructor
  · unfold Runtime.execute_block
    rw [run_extrinsics_block_number]
    rfl
  · unfold Runtime.execute_block
    rw [run_extrinsics_length]

/-- Claim C6: create_claim fails with the claim-already-exists error when the
content has an owner, leaving that owner in place; otherwise it succeeds and
records the caller as the owner of the content. -/
theorem C6_create_claim (p : proof_of_existence.Pallet) (A B : AccountId) (C : Content) :
    (p.get_claim C = some B →
      (p.create_claim A C).1 = Except.error "Claim already exists"
      ∧ (p.create_claim A C).2.get_claim C = some B)
    ∧ (p.get_claim C = none →
      (p.create_claim A C).1 = Except.ok ()
      ∧ (p.create_claim A C).2.get_claim C = some A) := by
  constructor
  · intro h
    simp [proof_of_existence.Pallet.create_claim, h]
  · intro h
    have h2 : lookupMap p.claims C = none := h
    simp [proof_of_existence.Pallet.create_claim, proof_of_existence.Pallet.get_claim,
          h2, lookupMap_insertMap_same]

/-- Witness for claim C6: on an empty registry alice claims the content doc,
and a second claim of doc by bob is rejected with alice still the owner. -/
theorem C6_create_claim_witness :
    (proof_of_existence.Pallet.new.get_claim "doc" = none
      ∧ (proof_of_existence.Pallet.new.create_claim "alice" "doc").1 = Except.ok ()
      ∧ (proof_of_existence.Pallet.new.create_claim "alice" "doc").2.get_claim "doc"
          = some "alice")
    ∧ (demoPoe.get_claim "doc" = some "alice"
      ∧ (demoPoe.create_claim "bob" "doc").1 = Except.error "Claim already exists"
      ∧ (demoPoe.create_claim "bob" "doc").2.get_claim "doc" = some "alice") :=
  ⟨⟨rfl, (C6_create_claim proof_of_existence.Pallet.new "alice" "alice" "doc").2 rfl⟩,
   ⟨rfl, (C6_create_claim demoPoe "bob" "alice" "doc").1 rfl⟩⟩

/-- Claim C7: revoke_claim fails with the claim-not-found error when the
content has no owner, fails with the not-claim-owner error when the owner
differs from the caller with the owner unchanged, and succeeds when the caller
is the owner, removing the mapping. -/
theorem C7_revoke_claim (p : proof_of_existence.Pallet) (A caller : AccountId) (C : Content) :
    (p.get_claim C = none →
      (p.revoke_claim caller C).1 = Except.error "Claim does not exist."
      ∧ (p.revoke_claim caller C).2 = p)
    ∧ (p.get_claim C = some A → A ≠ caller →
      (p.revoke_claim caller C).1 = Except.error "Caller is not the owner of the claim"
      ∧ (p.revoke_claim caller C).2.get_claim C = some A)
    ∧ (p.get_claim C = some caller →
      (p.revoke_claim caller C).1 = Except.ok ()
      ∧ (p.revoke_claim caller C).2.get_claim C = none) := by
  refine ⟨?_, ?_, ?_⟩
  · intro h
    simp [proof_of_existence.Pallet.revoke_claim, h]
  · intro h hne
    simp [proof_of_existence.Pallet.revoke_claim, h, hne]
  · intro h
    have h2 : lookupMap p.claims C = some caller := h
    simp [proof_of_existence.Pallet.revoke_claim, proof_of_existence.Pallet.get_claim,
          h2, lookupMap_removeMap_same]

/-- Witness for claim C7: with alice owning doc, a revoke by bob is refused
and leaves alice as owner, a revoke of an unclaimed content fails, and a
revoke by alice removes the claim. -/
theorem C7_revoke_claim_witness :
    (proof_of_existence.Pallet.new.get_claim "doc" = none
      ∧ (proof_of_existence.Pallet.new.revoke_claim "alice" "doc").1
          = Except.error "Claim does not exist."
      ∧ (proof_of_existence.Pallet.new.revoke_claim "alice" "doc").2
          = proof_of_existence.Pallet.new)
    ∧ (demoPoe.get_claim "doc" = some "alice" ∧ ("alice" : AccountId) ≠ "bob"
      ∧ (demoPoe.revoke_claim "bob" "doc").1
          = Except.error "Caller is not the owner of the claim"
      ∧ (demoPoe.revoke_claim "bob" "doc").2.get_claim "doc" = some "alice")
    ∧ ((demoPoe.revoke_claim "alice" "doc").1 = Except.ok ()
      ∧ (demoPoe.revoke_claim "alice" "doc").2.get_claim "doc" = none) :=
  ⟨⟨rfl, (C7_revoke_claim proof_of_existence.Pallet.new "alice" "alice" "doc").1 rfl⟩,
   ⟨rfl, by decide, (C7_revoke_claim demoPoe "alice" "bob" "doc").2.1 rfl (by decide)⟩,
   (C7_revoke_claim demoPoe "alice" "alice" "doc").2.2 rfl⟩

/-- Claim C8: inc_block_number performs a plain add-one on the u32 counter;
for every block number whose successor is still representable - the documented
precondition, block numbers never overflowing the selected width - the
increment neither wraps nor traps and yields exactly the successor. -/
theorem C8_inc_block_number (p : system.Pallet) (h : p.block_number + 1 < U32_LIMIT) :
    (p.inc_block_number).block_number = p.block_number + 1 := by
  simp [system.Pallet.inc_block_number, Nat.mod_eq_of_lt h]

/-- Witness for claim C8: incrementing a fresh system pallet moves the block
number from 0 to 1 without wrapping. -/
theorem C8_inc_block_number_witness :
    system.Pallet.new.block_number + 1 < U32_LIMIT
    ∧ (system.Pallet.new.inc_block_number).block_number
        = system.Pallet.new.block_number + 1 :=
  ⟨by decide, C8_inc_block_number system.Pallet.new (by decide)⟩

/-- Claim C9: a freshly constructed runtime has empty state: block number
zero, every account at balance zero and nonce zero, and no content claimed. -/
theorem C9_new_runtime_empty :
    Runtime.new.system.block_number = 0
    ∧ (∀ a : AccountId, Runtime.new.balances.balance a = 0
        ∧ Runtime.new.system.get_nonce a = 0)
    ∧ (∀ c : Content, Runtime.new.proof_of_existence.get_claim c = none) :=
  ⟨rfl, fun _ => ⟨rfl, rfl⟩, fun _ => rfl⟩

/-- Claim C10: transfer touches at most the caller and the recipient: every
third account keeps its balance, whether the transfer succeeds or fails. -/
theorem C10_transfer_frame (p : balances.Pallet) (A B X : AccountId) (k : Nat)
    (hA : X ≠ A) (hB : X ≠ B) :
    (p.transfer A B k).2.balance X = p.balance X := by
  by_cases hk : k ≤ p.balance A
  · by_cases hov : p.balance B + k < U128_LIMIT
    · have hs : checked_sub (p.balance A) k = some (p.balance A - k) := by
        simp [checked_sub, hk]
      have hadd : checked_add (p.balance B) k U128_LIMIT = some (p.balance B + k) := by
        simp [checked_add, hov]
      simp [balances.Pallet.transfer, hs, hadd,
            balances.balance_set_balance_ne _ _ _ _ hA,
            balances.balance_set_balance_ne _ _ _ _ hB]
    · have hs : checked_sub (p.balance A) k = some (p.balance A - k) := by
        simp [checked_sub, hk]
      have hadd : checked_add (p.balance B) k U128_LIMIT = none := by
        simp only [checked_add, ite_eq_right_iff]
        omega
      simp [balances.Pallet.transfer, hs, hadd]
  · have hs : checked_sub (p.balance A) k = none := by
      simp only [checked_sub, ite_eq_right_iff]
      omega
    simp [balances.Pallet.transfer, hs]

/-- Witness for claim C10: alice sends 30 to bob and the balance of charli is
untouched. -/
theorem C10_transfer_frame_witness :
    (("charli" : AccountId) ≠ "alice") ∧ (("charli" : AccountId) ≠ "bob")
    ∧ (demoPallet.transfer "alice" "bob" 30).2.balance "charli"
        = demoPallet.balance "charli" :=
  ⟨by decide, by decide,
   C10_transfer_frame demoPallet "alice" "bob" "charli" 30 (by decide) (by decide)⟩
